import Mathlib

/-!
Shallow embedding of the maze-ball engine of MoCIoT_Website
(source file `src/unnamed/part_004`, the canonical variant whose line
numbers the claims cite; `src/js/levels/render_game.js` shares
`isWall`, `findSpecialCells`, `syncBallRadius`).

Numbers are modelled by `ℚ`.  `Math.sqrt` is modelled by `ratSqrt`,
which is exact on perfect rational squares (lemma `ratSqrt_sq`);
statements that depend on the value of a square root carry the
corresponding exactness hypothesis.  The factor
`Math.exp(-friction * dt)` is irrational, so it is passed to
`stepPhysics` as an explicit `damp` parameter.  DOM side effects
(`showWinModal`, the timer wiring inside `pauseGame`) are abstracted
into a boolean completion event returned by `stepPhysics`; the state
effect of `pauseGame` on the ball (zeroing the velocity) is kept.
-/

namespace MoCIoT

/-- JS `clamp(val, min, max) = Math.min(max, Math.max(min, val))`
(part_004 lines 409-411). -/
def clamp (val lo hi : ℚ) : ℚ := min hi (max lo val)

/-- Fuelled binary integer square root (equal to the floor of the real
square root once the fuel is at least `n`); structurally recursive so
that concrete instances reduce inside proofs. -/
def natSqrtFuel : ℕ → ℕ → ℕ
  | 0, _ => 0
  | fuel + 1, n =>
    if n = 0 then 0
    else
      let r := natSqrtFuel fuel (n / 4)
      if (2 * r + 1) * (2 * r + 1) ≤ n then 2 * r + 1 else 2 * r

/-- Integer square root: the floor of the real square root of `n`
(lemma `natSqrt_bounds`). -/
def natSqrt (n : ℕ) : ℕ := natSqrtFuel n n

/-- Model of `Math.sqrt` on `ℚ`: exact on perfect rational squares
(lemma `ratSqrt_sq`), `0` on non-positive input, and a floor-square-root
based approximation otherwise.  Claims whose truth depends on the value
of a square root are stated with the corresponding exactness
hypothesis. -/
def ratSqrt (q : ℚ) : ℚ :=
  if q ≤ 0 then 0 else (natSqrt q.num.toNat : ℚ) / (natSqrt q.den : ℚ)

/-- A level grid as in `levels.json`: a list of rows of tile symbols. -/
abbrev Grid := List (List Char)

/-- JS `isWall(col, row)` (part_004 lines 463-468): `false` when no
level or grid is loaded; `true` out of bounds (bounds taken from
`grid.length` and `grid[0].length`); otherwise `grid[row][col] === '#'`
(a missing cell of a ragged row reads as `undefined`, hence not `'#'`). -/
def isWall : Option Grid → ℤ → ℤ → Bool
  | none, _, _ => false
  | some grid, col, row =>
    if row < 0 || col < 0 then true
    else if (grid.length : ℤ) ≤ row || ((grid.headD []).length : ℤ) ≤ col then true
    else (((grid.get? row.toNat).getD []).get? col.toNat).getD ' ' == '#'

/-- Loop body of JS `findSpecialCells` (part_004 lines 413-424): row
`r` overwrites the accumulator whenever `row.indexOf` finds the symbol
(`row.indexOf` returns the first index inside the row). -/
def findSpecialCellsAux : ℕ → Option (ℕ × ℕ) → Option (ℕ × ℕ) → Grid →
    Option (ℕ × ℕ) × Option (ℕ × ℕ)
  | _, s, g, [] => (s, g)
  | r, s, g, row :: rest =>
      let s' := match row.findIdx? (· == 'S') with
        | some c => some (r, c)
        | none => s
      let g' := match row.findIdx? (· == 'G') with
        | some c => some (r, c)
        | none => g
      findSpecialCellsAux (r + 1) s' g' rest

/-- JS `findSpecialCells(grid)` (part_004 lines 413-424), returning the
pair of start and goal cells as `(row, col)` pairs. -/
def findSpecialCells (grid : Grid) : Option (ℕ × ℕ) × Option (ℕ × ℕ) :=
  findSpecialCellsAux 0 none none grid

/-- Spec-side comparison definition for the amended C5: the occurrence
of `sym` in the latest row (counting from index `r0`) that contains it,
at the earliest column within that row. -/
def lastSymbolCellFrom (sym : Char) : ℕ → Grid → Option (ℕ × ℕ)
  | _, [] => none
  | r0, row :: rest =>
      match lastSymbolCellFrom sym (r0 + 1) rest with
      | some v => some v
      | none => (row.findIdx? (· == sym)).map fun c => (r0, c)

/-- The latest-row, earliest-column occurrence of `sym` in the grid. -/
def lastSymbolCell (sym : Char) (grid : Grid) : Option (ℕ × ℕ) :=
  lastSymbolCellFrom sym 0 grid

/-- JS `syncBallRadius(cellSize)` (part_004 lines 426-428):
`ball.radius = Math.max(3, Math.min(cellSize*0.35, cellSize*0.45))`. -/
def syncBallRadius (cellSize : ℚ) : ℚ :=
  max 3 (min (cellSize * (35 / 100)) (cellSize * (45 / 100)))

/-- JS `renderInfo` object (part_004 line 16). -/
structure RenderInfo where
  cols : ℕ
  rows : ℕ
  cellSize : ℚ
  deriving DecidableEq

/-- The loaded-session configuration read by the engine closures:
`currentLevel.grid`, `renderInfo`, and `goalCell`.  The goal cell
coordinates are integers because the code compares them against
`Math.floor` results (part_004 lines 504-506). -/
structure Cfg where
  level : Option Grid
  render : RenderInfo
  goalCell : Option (ℤ × ℤ)
  deriving DecidableEq

/-- Mutable state of the collision-resolution loop: the candidate
center `(cx, cy)`, the ball velocity (mutated by the sliding response),
and the per-pass `collided` flag (part_004 lines 515-521). -/
structure ResolveState where
  cx : ℚ
  cy : ℚ
  vx : ℚ
  vy : ℚ
  collided : Bool
  deriving DecidableEq

/-- Squared distance from the point `(cx, cy)` to the closest point of
the box `[x0, x1] × [y0, y1]` (part_004 lines 533-537): per-axis clamp
of the center into the box, then the squared distance to that point. -/
def tileDistSq (cx cy x0 y0 x1 y1 : ℚ) : ℚ :=
  let dx := cx - clamp cx x0 x1
  let dy := cy - clamp cy y0 y1
  dx * dx + dy * dy

/-- Contact normal of a circle centered at `(cx, cy)` against the wall
box `[x0, x1] × [y0, y1]` (part_004 lines 540-553): the normalized
vector from the closest box point to the center when their distance is
positive, otherwise the least-penetration axis tie-break
(left, then right, then top, then bottom). -/
def contactNormal (cx cy x0 y0 x1 y1 : ℚ) : ℚ × ℚ :=
  let dx := cx - clamp cx x0 x1
  let dy := cy - clamp cy y0 y1
  let dist := ratSqrt (max (tileDistSq cx cy x0 y0 x1 y1) 0)
  if 0 < dist then (dx / dist, dy / dist)
  else
    let leftPen := |cx - x0|
    let rightPen := |x1 - cx|
    let topPen := |cy - y0|
    let bottomPen := |y1 - cy|
    let minPen := min (min leftPen rightPen) (min topPen bottomPen)
    if minPen = leftPen then (-1, 0)
    else if minPen = rightPen then (1, 0)
    else if minPen = topPen then (0, -1)
    else (0, 1)

/-- Per-tile collision handling of the resolver (part_004 lines
527-564) for the wall tile `(col, row)`: if the circle at the current
candidate center overlaps the tile box by more than the epsilon
`1e-6`, push the center out by `radius - dist + 0.01` along the
contact normal and apply the sliding response to the velocity;
otherwise leave the state unchanged. -/
def resolveTile (radius cellSize : ℚ) (col row : ℤ) (s : ResolveState) : ResolveState :=
  let x0 := col * cellSize
  let y0 := row * cellSize
  let x1 := x0 + cellSize
  let y1 := y0 + cellSize
  let distSq := tileDistSq s.cx s.cy x0 y0 x1 y1
  let radSq := radius * radius
  if distSq < radSq - 1 / 1000000 then
    let dist := ratSqrt (max distSq 0)
    let n := contactNormal s.cx s.cy x0 y0 x1 y1
    let penetration := radius - dist + 1 / 100
    let cx' := s.cx + n.1 * penetration
    let cy' := s.cy + n.2 * penetration
    let vDotN := s.vx * n.1 + s.vy * n.2
    if vDotN < 0 then
      { cx := cx', cy := cy', vx := s.vx - vDotN * n.1, vy := s.vy - vDotN * n.2,
        collided := true }
    else
      { cx := cx', cy := cy', vx := s.vx, vy := s.vy, collided := true }
  else s

/-- The inclusive integer range `[lo, hi]` of a JS
`for (let i = lo; i <= hi; i++)` loop. -/
def rangeZ (lo hi : ℤ) : List ℤ :=
  (List.range (hi + 1 - lo).toNat).map fun i => lo + i

/-- One pass of the resolver outer loop (part_004 lines 520-566):
compute the band of tile rows and columns that the bounding box of the
circle can touch (from the center at the start of the pass), reset
`collided`, then scan the band in row-major order, resolving every wall
tile against the state updated so far within the same pass. -/
def resolvePass (level : Option Grid) (info : RenderInfo) (radius cellSize : ℚ)
    (s : ResolveState) : ResolveState :=
  let minRow : ℤ := max 0 ⌊(s.cy - radius) / cellSize⌋
  let maxRow : ℤ := min ((info.rows : ℤ) - 1) ⌊(s.cy + radius) / cellSize⌋
  let minCol : ℤ := max 0 ⌊(s.cx - radius) / cellSize⌋
  let maxCol : ℤ := min ((info.cols : ℤ) - 1) ⌊(s.cx + radius) / cellSize⌋
  (rangeZ minRow maxRow).foldl
    (fun s1 row =>
      (rangeZ minCol maxCol).foldl
        (fun s2 col =>
          if isWall level col row then resolveTile radius cellSize col row s2 else s2)
        s1)
    { s with collided := false }

/-- The resolver outer loop, `for (let iter = 0; iter < maxIter;
iter++) { ...; if (!collided) break; }` with `maxIter = 4` (part_004
lines 517-567), as a fuelled recursion. -/
def resolveLoop (level : Option Grid) (info : RenderInfo) (radius cellSize : ℚ) :
    ℕ → ResolveState → ResolveState
  | 0, s => s
  | fuel + 1, s =>
      let s' := resolvePass level info radius cellSize s
      if s'.collided then resolveLoop level info radius cellSize fuel s' else s'

/-- JS `resolveCircleCollisions(nextX, nextY, radius, cellSize)`
(part_004 lines 514-571).  The JS function reads `renderInfo`,
`currentLevel` (via `isWall`) and `ball.vel` from the enclosing scope
and mutates `ball.vel`; here the velocity is passed in and the updated
velocity is returned alongside the position. -/
def resolveCircleCollisions (cfg : Cfg) (vel : ℚ × ℚ) (nextX nextY radius cellSize : ℚ) :
    (ℚ × ℚ) × (ℚ × ℚ) :=
  let maxX := (cfg.render.cols : ℚ) * cellSize - radius
  let maxY := (cfg.render.rows : ℚ) * cellSize - radius
  let s := resolveLoop cfg.level cfg.render radius cellSize 4
    { cx := nextX, cy := nextY, vx := vel.1, vy := vel.2, collided := false }
  ((clamp s.cx radius maxX, clamp s.cy radius maxY), (s.vx, s.vy))

/-- The ball record (part_004 lines 24-28). -/
structure Ball where
  px : ℚ
  py : ℚ
  vx : ℚ
  vy : ℚ
  radius : ℚ
  deriving DecidableEq

/-- The engine state mutated by `stepPhysics`: the ball and the
`goalReached` flag (part_004 lines 19, 24-28). -/
structure GameState where
  ball : Ball
  goalReached : Bool
  deriving DecidableEq

/-- The sub-step count of `stepPhysics` (part_004 lines 490-492):
`Math.max(1, Math.ceil(speed * dt / Math.max(1, maxTravelPerSubStep)))`. -/
def subStepCount (speed dt maxTravel : ℚ) : ℤ :=
  max 1 ⌈speed * dt / max 1 maxTravel⌉

/-- Modelled from the spec: the sub-step count asserted by claim C7,
`N = max(1, ceil(speed * dt / maxStep))` with `maxStep = 0.45 * cellSize`
taken as the divisor, without the guard `Math.max(1, maxStep)` that the
code applies to the divisor. -/
def claimedSubStepCount (speed dt maxTravel : ℚ) : ℤ :=
  max 1 ⌈speed * dt / maxTravel⌉

/-- The sub-step loop of `stepPhysics` (part_004 lines 495-501): `n`
iterations, each proposing `pos + vel * stepDt` and adopting the
corrected position and velocity returned by the resolver. -/
def subSteps (cfg : Cfg) (radius cellSize stepDt : ℚ) : ℕ → Ball → Ball
  | 0, b => b
  | n + 1, b =>
      let nextX := b.px + b.vx * stepDt
      let nextY := b.py + b.vy * stepDt
      let r := resolveCircleCollisions cfg (b.vx, b.vy) nextX nextY radius cellSize
      subSteps cfg radius cellSize stepDt n
        { b with px := r.1.1, py := r.1.2, vx := r.2.1, vy := r.2.2 }

/-- Goal detection at the end of `stepPhysics` (part_004 lines
503-511): when not yet completed and a goal cell exists, compare the
tile containing the ball center with the goal cell; on a match set
`goalReached`, zero the velocity (the ball-state effect of
`pauseGame()`), and report the completion event. -/
def goalCheck (cfg : Cfg) (goalReached : Bool) (b : Ball) : GameState × Bool :=
  match goalReached, cfg.goalCell with
  | false, some gc =>
      if ⌊b.py / cfg.render.cellSize⌋ = gc.1 ∧ ⌊b.px / cfg.render.cellSize⌋ = gc.2 then
        ({ ball := { b with vx := 0, vy := 0 }, goalReached := true }, true)
      else ({ ball := b, goalReached := false }, false)
  | _, _ => ({ ball := b, goalReached := goalReached }, false)

/-- JS `stepPhysics(dt)` (part_004 lines 480-512).  `damp` stands for
the irrational factor `Math.exp(-friction * dt)`; `(ax, ay)` is the
result of `computeAcceleration()`.  The returned boolean is the
completion event of this call. -/
def stepPhysics (cfg : Cfg) (damp ax ay dt : ℚ) (st : GameState) : GameState × Bool :=
  let vx := (st.ball.vx + ax * dt) * damp
  let vy := (st.ball.vy + ay * dt) * damp
  let cellSize := cfg.render.cellSize
  let radius := st.ball.radius
  let speed := ratSqrt (vx * vx + vy * vy)
  let maxTravelPerSubStep := cellSize * (45 / 100)
  let steps := subStepCount speed dt maxTravelPerSubStep
  let stepDt := dt / (steps : ℚ)
  let b1 := subSteps cfg radius cellSize stepDt steps.toNat
    { st.ball with vx := vx, vy := vy }
  goalCheck cfg st.goalReached b1

/-- JS `timerState` (part_004 line 33). -/
structure TimerState where
  startTime : ℚ
  elapsedMs : ℚ
  running : Bool
  started : Bool
  deriving DecidableEq

/-- JS `resetTimer()` (part_004 lines 45-50). -/
def resetTimer (_st : TimerState) : TimerState :=
  { startTime := 0, elapsedMs := 0, running := false, started := false }

/-- JS `startTimer()` (part_004 lines 52-57); `now` is the current
clock reading `performance.now()`. -/
def startTimer (now : ℚ) (st : TimerState) : TimerState :=
  if st.running then st
  else { st with startTime := now, running := true, started := true }

/-- JS `stopTimer()` (part_004 lines 59-63). -/
def stopTimer (now : ℚ) (st : TimerState) : TimerState :=
  if st.running then
    { st with elapsedMs := st.elapsedMs + (now - st.startTime), running := false }
  else st

/-- JS `getElapsedMs()` (part_004 lines 65-68). -/
def getElapsedMs (now : ℚ) (st : TimerState) : ℚ :=
  if st.running then st.elapsedMs + (now - st.startTime) else st.elapsedMs

end MoCIoT

namespace MoCIoT

/-- The fuelled integer square root is a floor square root whenever the
fuel dominates the argument. -/
theorem natSqrtFuel_bounds :
    ∀ fuel n : ℕ, n ≤ fuel →
      natSqrtFuel fuel n * natSqrtFuel fuel n ≤ n ∧
        n < (natSqrtFuel fuel n + 1) * (natSqrtFuel fuel n + 1) := by
  intro fuel
  induction fuel with
  | zero =>
      intro n hn
      have h0 : n = 0 := Nat.le_zero.mp hn
      subst h0
      simp [natSqrtFuel]
  | succ f ih =>
      intro n hn
      by_cases h0 : n = 0
      · subst h0; simp [natSqrtFuel]
      · have hpos : 0 < n := Nat.pos_of_ne_zero h0
        have hdiv : n / 4 ≤ f := by
          have hlt : n / 4 < n := Nat.div_lt_self hpos (by norm_num)
          omega
        obtain ⟨h1, h2⟩ := ih (n / 4) hdiv
        set r := natSqrtFuel f (n / 4) with hr
        have hself : natSqrtFuel (f + 1) n =
            if (2 * r + 1) * (2 * r + 1) ≤ n then 2 * r + 1 else 2 * r := by
          simp only [natSqrtFuel, h0, if_false, hr]
        by_cases hle : (2 * r + 1) * (2 * r + 1) ≤ n
        · rw [hself, if_pos hle]
          refine ⟨hle, ?_⟩
          have h4 : n < (r + 1) * (r + 1) * 4 :=
            (Nat.div_lt_iff_lt_mul (by norm_num)).mp h2
          nlinarith
        · rw [hself, if_neg hle]
          have ha : 2 * r * (2 * r) ≤ n := by
            have h41 : 4 * (r * r) ≤ 4 * (n / 4) := Nat.mul_le_mul_left 4 h1
            have h42 : n / 4 * 4 ≤ n := Nat.div_mul_le_self n 4
            nlinarith
          exact ⟨ha, by omega⟩

/-- `natSqrt` is the floor square root. -/
theorem natSqrt_bounds (n : ℕ) :
    natSqrt n * natSqrt n ≤ n ∧ n < (natSqrt n + 1) * (natSqrt n + 1) :=
  natSqrtFuel_bounds n n le_rfl

/-- `natSqrt` is exact on perfect squares. -/
theorem natSqrt_mul_self (a : ℕ) : natSqrt (a * a) = a := by
  obtain ⟨h1, h2⟩ := natSqrt_bounds (a * a)
  set r := natSqrt (a * a) with hr
  have hra : r ≤ a := by nlinarith
  have har : a ≤ r := by nlinarith
  omega

/-- `ratSqrt` is exact on perfect rational squares. -/
theorem ratSqrt_sq (s : ℚ) (hs : 0 ≤ s) : ratSqrt (s * s) = s := by
  rcases eq_or_lt_of_le hs with h0 | hpos
  · rw [← h0]
    simp [ratSqrt]
  · have hss : 0 < s * s := mul_pos hpos hpos
    rw [ratSqrt, if_neg (not_le.mpr hss)]
    have hnum : (s * s).num = s.num * s.num := Rat.mul_self_num s
    have hden : (s * s).den = s.den * s.den := Rat.mul_self_den s
    have hnpos : 0 < s.num := Rat.num_pos.mpr hpos
    have hcast : s.num = (s.num.toNat : ℤ) := (Int.toNat_of_nonneg hnpos.le).symm
    have htn : (s * s).num.toNat = s.num.toNat * s.num.toNat := by
      rw [hnum, hcast]
      exact_mod_cast Int.toNat_natCast _
    rw [htn, hden, natSqrt_mul_self, natSqrt_mul_self]
    rw [show ((s.num.toNat : ℕ) : ℚ) = ((s.num.toNat : ℤ) : ℚ) by push_cast; ring,
      ← hcast]
    exact Rat.num_div_den s

/-- `ratSqrt q = s` whenever `s` is the nonnegative exact square root
of `q`. -/
theorem ratSqrt_eq_of_sq (q s : ℚ) (hs : 0 ≤ s) (h : s * s = q) : ratSqrt q = s := by
  rw [← h]; exact ratSqrt_sq s hs

/-- `clamp` lands in `[lo, hi]` whenever that interval is nonempty. -/
theorem clamp_mem (val lo hi : ℚ) (h : lo ≤ hi) :
    lo ≤ clamp val lo hi ∧ clamp val lo hi ≤ hi :=
  ⟨le_min h (le_max_left lo val), min_le_left hi _⟩

/-- `clamp` fixes every point of `[lo, hi]`. -/
theorem clamp_eq_self (val lo hi : ℚ) (h1 : lo ≤ val) (h2 : val ≤ hi) :
    clamp val lo hi = val := by
  rw [clamp, max_eq_right h1, min_eq_right h2]

/-- A one-cell level consisting of a single floor tile, used as a
concrete session for witnesses. -/
def cfgFloor : Cfg :=
  { level := some [['.']],
    render := { cols := 1, rows := 1, cellSize := 10 },
    goalCell := none }

/-- C1: for every resolver call, the position returned by
`resolveCircleCollisions(nextX, nextY, radius, cellSize)` lies within
`[radius, cols * cellSize - radius]` on the x axis and within
`[radius, rows * cellSize - radius]` on the y axis, for every input
position, assuming both intervals are nonempty. -/
theorem resolver_position_within_bounds (cfg : Cfg) (vel : ℚ × ℚ)
    (nextX nextY radius cellSize : ℚ)
    (hx : radius ≤ (cfg.render.cols : ℚ) * cellSize - radius)
    (hy : radius ≤ (cfg.render.rows : ℚ) * cellSize - radius) :
    radius ≤ (resolveCircleCollisions cfg vel nextX nextY radius cellSize).1.1 ∧
    (resolveCircleCollisions cfg vel nextX nextY radius cellSize).1.1 ≤
      (cfg.render.cols : ℚ) * cellSize - radius ∧
    radius ≤ (resolveCircleCollisions cfg vel nextX nextY radius cellSize).1.2 ∧
    (resolveCircleCollisions cfg vel nextX nextY radius cellSize).1.2 ≤
      (cfg.render.rows : ℚ) * cellSize - radius := by
  unfold resolveCircleCollisions
  exact ⟨(clamp_mem _ _ _ hx).1, (clamp_mem _ _ _ hx).2,
    (clamp_mem _ _ _ hy).1, (clamp_mem _ _ _ hy).2⟩

/-- Witness for C1 at a concrete session and a far-out input position. -/
theorem resolver_position_within_bounds_witness :
    ((3 : ℚ) ≤ (cfgFloor.render.cols : ℚ) * 10 - 3 ∧
     (3 : ℚ) ≤ (cfgFloor.render.rows : ℚ) * 10 - 3) ∧
    ((3 : ℚ) ≤ (resolveCircleCollisions cfgFloor (1, 2) 100 (-50) 3 10).1.1 ∧
     (resolveCircleCollisions cfgFloor (1, 2) 100 (-50) 3 10).1.1 ≤
       (cfgFloor.render.cols : ℚ) * 10 - 3 ∧
     (3 : ℚ) ≤ (resolveCircleCollisions cfgFloor (1, 2) 100 (-50) 3 10).1.2 ∧
     (resolveCircleCollisions cfgFloor (1, 2) 100 (-50) 3 10).1.2 ≤
       (cfgFloor.render.rows : ℚ) * 10 - 3) :=
  ⟨⟨by norm_num [cfgFloor], by norm_num [cfgFloor]⟩,
    resolver_position_within_bounds cfgFloor (1, 2) 100 (-50) 3 10
      (by norm_num [cfgFloor]) (by norm_num [cfgFloor])⟩

end MoCIoT

namespace MoCIoT

/-- `resolveTile` either leaves the state unchanged or reports a
collision. -/
theorem resolveTile_eq_or_collided (radius cellSize : ℚ) (col row : ℤ) (s : ResolveState) :
    resolveTile radius cellSize col row s = s ∨
      (resolveTile radius cellSize col row s).collided = true := by
  unfold resolveTile
  simp only []
  split
  · split <;> exact Or.inr rfl
  · exact Or.inl rfl

/-- A fold of steps that each either fix the state or set `collided`
itself either fixes the state or sets `collided`. -/
theorem foldl_eq_or_collided {α : Type} (F : ResolveState → α → ResolveState)
    (hF : ∀ s a, F s a = s ∨ (F s a).collided = true) :
    ∀ (l : List α) (s : ResolveState),
      l.foldl F s = s ∨ (l.foldl F s).collided = true := by
  intro l
  induction l with
  | nil => intro s; exact Or.inl rfl
  | cons a l ih =>
      intro s
      rcases hF s a with h | h
      · simpa [h] using ih s
      · rcases ih (F s a) with h2 | h2
        · rw [List.foldl_cons, h2]; exact Or.inr h
        · exact Or.inr h2

/-- If a fold of such steps ends with `collided = false`, it fixed the
state. -/
theorem foldl_eq_of_not_collided {α : Type} (F : ResolveState → α → ResolveState)
    (hF : ∀ s a, F s a = s ∨ (F s a).collided = true)
    (l : List α) (s : ResolveState) (h : (l.foldl F s).collided = false) :
    l.foldl F s = s := by
  rcases foldl_eq_or_collided F hF l s with h2 | h2
  · exact h2
  · rw [h] at h2; exact absurd h2 (by simp)

/-- If a resolver pass ends with `collided = false`, it only reset the
`collided` flag: no tile moved the center or the velocity. -/
theorem resolvePass_eq_of_not_collided (level : Option Grid) (info : RenderInfo)
    (radius cellSize : ℚ) (s : ResolveState)
    (h : (resolvePass level info radius cellSize s).collided = false) :
    resolvePass level info radius cellSize s = { s with collided := false } := by
  have hinner : ∀ (row : ℤ) (s2 : ResolveState) (col : ℤ),
      (if isWall level col row then resolveTile radius cellSize col row s2 else s2) = s2 ∨
      (if isWall level col row then resolveTile radius cellSize col row s2 else s2).collided
        = true := by
    intro row s2 col
    by_cases hw : isWall level col row
    · simpa [hw] using resolveTile_eq_or_collided radius cellSize col row s2
    · simp [hw]
  have houter : ∀ (s1 : ResolveState) (row : ℤ),
      (fun s1 row =>
        (rangeZ (max 0 ⌊(s.cx - radius) / cellSize⌋)
            (min ((info.cols : ℤ) - 1) ⌊(s.cx + radius) / cellSize⌋)).foldl
          (fun s2 col =>
            if isWall level col row then resolveTile radius cellSize col row s2 else s2)
          s1) s1 row = s1 ∨
      ((fun s1 row =>
        (rangeZ (max 0 ⌊(s.cx - radius) / cellSize⌋)
            (min ((info.cols : ℤ) - 1) ⌊(s.cx + radius) / cellSize⌋)).foldl
          (fun s2 col =>
            if isWall level col row then resolveTile radius cellSize col row s2 else s2)
          s1) s1 row).collided = true := by
    intro s1 row
    exact foldl_eq_or_collided _ (hinner row) _ s1
  unfold resolvePass at h ⊢
  exact foldl_eq_of_not_collided _ houter _ _ h

/-- C2 (amended): a position at which the resolver pass detects no
collision and which lies within the playfield bounds is a fixed point
of `resolveCircleCollisions`, with the velocity returned unchanged.
The counterexample shows that the output position of the resolver
itself need not satisfy this premise: the final backstop clamp can move
the position back into a wall. -/
theorem resolver_fixed_on_stable_points (cfg : Cfg) (vel : ℚ × ℚ)
    (px py radius cellSize : ℚ)
    (hfree : (resolvePass cfg.level cfg.render radius cellSize
        { cx := px, cy := py, vx := vel.1, vy := vel.2, collided := false }).collided = false)
    (hx1 : radius ≤ px) (hx2 : px ≤ (cfg.render.cols : ℚ) * cellSize - radius)
    (hy1 : radius ≤ py) (hy2 : py ≤ (cfg.render.rows : ℚ) * cellSize - radius) :
    resolveCircleCollisions cfg vel px py radius cellSize = ((px, py), vel) := by
  have hs0 : resolvePass cfg.level cfg.render radius cellSize
      ⟨px, py, vel.1, vel.2, false⟩ = ⟨px, py, vel.1, vel.2, false⟩ :=
    resolvePass_eq_of_not_collided _ _ _ _ _ hfree
  have hloop : resolveLoop cfg.level cfg.render radius cellSize 4
      ⟨px, py, vel.1, vel.2, false⟩ = ⟨px, py, vel.1, vel.2, false⟩ := by
    show (if (resolvePass cfg.level cfg.render radius cellSize
            ⟨px, py, vel.1, vel.2, false⟩).collided then
          resolveLoop cfg.level cfg.render radius cellSize 3
            (resolvePass cfg.level cfg.render radius cellSize ⟨px, py, vel.1, vel.2, false⟩)
        else resolvePass cfg.level cfg.render radius cellSize ⟨px, py, vel.1, vel.2, false⟩) =
        ⟨px, py, vel.1, vel.2, false⟩
    rw [hs0]
    rfl
  unfold resolveCircleCollisions
  simp only [hloop]
  rw [clamp_eq_self px radius _ hx1 hx2, clamp_eq_self py radius _ hy1 hy2]

/-- Witness for the amended C2 at a concrete collision-free in-bounds
position. -/
theorem resolver_fixed_on_stable_points_witness :
    ((resolvePass cfgFloor.level cfgFloor.render 3 10
        { cx := 5, cy := 5, vx := 1, vy := 2, collided := false }).collided = false ∧
     (3 : ℚ) ≤ 5 ∧ (5 : ℚ) ≤ (cfgFloor.render.cols : ℚ) * 10 - 3 ∧
     (3 : ℚ) ≤ 5 ∧ (5 : ℚ) ≤ (cfgFloor.render.rows : ℚ) * 10 - 3) ∧
    resolveCircleCollisions cfgFloor (1, 2) 5 5 3 10 = ((5, 5), (1, 2)) :=
  ⟨⟨by with_unfolding_all decide, by norm_num, by norm_num [cfgFloor],
      by norm_num, by norm_num [cfgFloor]⟩,
    resolver_fixed_on_stable_points cfgFloor (1, 2) 5 5 3 10
      (by with_unfolding_all decide) (by norm_num) (by norm_num [cfgFloor])
      (by norm_num) (by norm_num [cfgFloor])⟩

/-- A 3 x 3 level with a single wall tile in its top-left corner, the
scene of the C2 counterexample. -/
def cfgWallCorner : Cfg :=
  { level := some [['#', '.', '.'], ['.', '.', '.'], ['.', '.', '.']],
    render := { cols := 3, rows := 3, cellSize := 10 },
    goalCell := none }

/-- C2 counterexample: with radius 3 and cellSize 10 on
`cfgWallCorner`, resolving the proposal `(-2, 15/2)` returns the
position `(3, 15/2)` - the backstop clamp moves the pushed-out center
back inside the corner wall tile.  Feeding that output position (with
the output velocity) back into the resolver returns `(3, 1301/100)`,
not the same position, so the claimed idempotence fails. -/
theorem resolver_not_idempotent_cex :
    (resolveCircleCollisions cfgWallCorner
        (resolveCircleCollisions cfgWallCorner (0, 0) (-2) (15 / 2) 3 10).2
        (resolveCircleCollisions cfgWallCorner (0, 0) (-2) (15 / 2) 3 10).1.1
        (resolveCircleCollisions cfgWallCorner (0, 0) (-2) (15 / 2) 3 10).1.2 3 10).1 ≠
      (resolveCircleCollisions cfgWallCorner (0, 0) (-2) (15 / 2) 3 10).1 := by
  with_unfolding_all decide

/-- The squared point-to-box distance is nonnegative. -/
theorem tileDistSq_nonneg (cx cy x0 y0 x1 y1 : ℚ) :
    0 ≤ tileDistSq cx cy x0 y0 x1 y1 :=
  add_nonneg (mul_self_nonneg _) (mul_self_nonneg _)

/-- Under the square-root exactness hypothesis, the contact normal is a
unit vector: in the positive-distance branch because the normalization
divides by the exact root, in the embedded branch because the
tie-break returns an axis unit vector. -/
theorem contactNormal_unit (cx cy x0 y0 x1 y1 : ℚ)
    (hsq : ratSqrt (max (tileDistSq cx cy x0 y0 x1 y1) 0) *
        ratSqrt (max (tileDistSq cx cy x0 y0 x1 y1) 0) =
        max (tileDistSq cx cy x0 y0 x1 y1) 0) :
    (contactNormal cx cy x0 y0 x1 y1).1 * (contactNormal cx cy x0 y0 x1 y1).1 +
      (contactNormal cx cy x0 y0 x1 y1).2 * (contactNormal cx cy x0 y0 x1 y1).2 = 1 := by
  have hmax : max (tileDistSq cx cy x0 y0 x1 y1) 0 = tileDistSq cx cy x0 y0 x1 y1 :=
    max_eq_left (tileDistSq_nonneg cx cy x0 y0 x1 y1)
  unfold contactNormal
  simp only []
  by_cases hpos : 0 < ratSqrt (max (tileDistSq cx cy x0 y0 x1 y1) 0)
  · rw [if_pos hpos]
    have hne : ratSqrt (max (tileDistSq cx cy x0 y0 x1 y1) 0) ≠ 0 := ne_of_gt hpos
    have hkey : ratSqrt (max (tileDistSq cx cy x0 y0 x1 y1) 0) *
        ratSqrt (max (tileDistSq cx cy x0 y0 x1 y1) 0) =
        (cx - clamp cx x0 x1) * (cx - clamp cx x0 x1) +
          (cy - clamp cy y0 y1) * (cy - clamp cy y0 y1) := by
      rw [hsq, hmax]; rfl
    field_simp
    linear_combination -hkey
  · rw [if_neg hpos]
    split_ifs <;> norm_num

/-- C3: sliding collision response of the resolver at one contact
(part_004 lines 540-561).  `distSq` is the squared distance from the
candidate center to the wall box of tile `(col, row)`; the hypotheses
state that a collision is found and that the square root of `distSq`
is exact.  When the velocity points into the contact normal `n`
(`v . n < 0`), the velocity becomes `v - (v . n) n`: its component
along `n` is zero afterwards while the tangential component along
`(-n.2, n.1)` is unchanged.  When `v . n >= 0` the velocity is not
modified by the contact. -/
theorem resolveTile_sliding_response (radius cellSize : ℚ) (col row : ℤ)
    (s : ResolveState) (distSq : ℚ)
    (hd : distSq = tileDistSq s.cx s.cy ((col : ℚ) * cellSize) ((row : ℚ) * cellSize)
        ((col : ℚ) * cellSize + cellSize) ((row : ℚ) * cellSize + cellSize))
    (hcol : distSq < radius * radius - 1 / 1000000)
    (hsq : ratSqrt (max distSq 0) * ratSqrt (max distSq 0) = max distSq 0) :
    let n := contactNormal s.cx s.cy ((col : ℚ) * cellSize) ((row : ℚ) * cellSize)
      ((col : ℚ) * cellSize + cellSize) ((row : ℚ) * cellSize + cellSize)
    let s' := resolveTile radius cellSize col row s
    (s.vx * n.1 + s.vy * n.2 < 0 →
        s'.vx = s.vx - (s.vx * n.1 + s.vy * n.2) * n.1 ∧
        s'.vy = s.vy - (s.vx * n.1 + s.vy * n.2) * n.2 ∧
        s'.vx * n.1 + s'.vy * n.2 = 0 ∧
        s'.vx * (-n.2) + s'.vy * n.1 = s.vx * (-n.2) + s.vy * n.1) ∧
    (0 ≤ s.vx * n.1 + s.vy * n.2 → s'.vx = s.vx ∧ s'.vy = s.vy) := by
  intro n s'
  have hunit := contactNormal_unit s.cx s.cy ((col : ℚ) * cellSize) ((row : ℚ) * cellSize)
    ((col : ℚ) * cellSize + cellSize) ((row : ℚ) * cellSize + cellSize) (by rw [← hd]; exact hsq)
  have hs' : s' = resolveTile radius cellSize col row s := rfl
  rw [resolveTile] at hs'
  simp only [← hd] at hs'
  rw [if_pos hcol] at hs'
  constructor
  · intro hneg
    rw [if_pos hneg] at hs'
    rw [hs']
    refine ⟨rfl, rfl, ?_, by ring⟩
    show (s.vx - (s.vx * n.1 + s.vy * n.2) * n.1) * n.1 +
      (s.vy - (s.vx * n.1 + s.vy * n.2) * n.2) * n.2 = 0
    linear_combination (-(s.vx * n.1 + s.vy * n.2)) * hunit
  · intro hge
    rw [if_neg (not_lt.mpr hge)] at hs'
    rw [hs']
    exact ⟨rfl, rfl⟩

/-- Witness for C3 at a concrete axis-aligned contact: the ball at
`(8, 5)` with velocity `(5, 7)` against the wall tile `(1, 0)` with
radius 3 and cellSize 10; the contact normal is `(-1, 0)` and the
velocity becomes `(0, 7)`. -/
theorem resolveTile_sliding_response_witness :
    ((4 : ℚ) = tileDistSq 8 5 (((1 : ℤ) : ℚ) * 10) (((0 : ℤ) : ℚ) * 10)
        (((1 : ℤ) : ℚ) * 10 + 10) (((0 : ℤ) : ℚ) * 10 + 10) ∧
     (4 : ℚ) < 3 * 3 - 1 / 1000000 ∧
     ratSqrt (max (4 : ℚ) 0) * ratSqrt (max (4 : ℚ) 0) = max (4 : ℚ) 0) ∧
    (let n := contactNormal 8 5 (((1 : ℤ) : ℚ) * 10) (((0 : ℤ) : ℚ) * 10)
        (((1 : ℤ) : ℚ) * 10 + 10) (((0 : ℤ) : ℚ) * 10 + 10)
     let s' := resolveTile 3 10 1 0 { cx := 8, cy := 5, vx := 5, vy := 7, collided := false }
     ((5 : ℚ) * n.1 + 7 * n.2 < 0 →
        s'.vx = 5 - (5 * n.1 + 7 * n.2) * n.1 ∧
        s'.vy = 7 - (5 * n.1 + 7 * n.2) * n.2 ∧
        s'.vx * n.1 + s'.vy * n.2 = 0 ∧
        s'.vx * (-n.2) + s'.vy * n.1 = 5 * (-n.2) + 7 * n.1) ∧
     (0 ≤ (5 : ℚ) * n.1 + 7 * n.2 → s'.vx = 5 ∧ s'.vy = 7)) :=
  ⟨⟨by with_unfolding_all decide, by with_unfolding_all decide,
      by with_unfolding_all decide⟩,
    resolveTile_sliding_response 3 10 1 0
      { cx := 8, cy := 5, vx := 5, vy := 7, collided := false } 4
      (by with_unfolding_all decide) (by with_unfolding_all decide)
      (by with_unfolding_all decide)⟩

/-- C10: when no level is loaded, `isWall` returns `false` for every
coordinate, including negative and otherwise out-of-bounds ones. -/
theorem isWall_no_level (col row : ℤ) : isWall none col row = false := rfl

/-- C4: on a loaded rectangular grid, `isWall` returns `true` for every
out-of-bounds coordinate (closed world), and for an in-bounds cell it
returns `true` exactly when the cell symbol is the wall symbol. -/
theorem isWall_closed_world (g : Grid)
    (hrect : ∀ r ∈ g, r.length = (g.headD []).length) (col row : ℤ) :
    ((row < 0 ∨ col < 0 ∨ (g.length : ℤ) ≤ row ∨ ((g.headD []).length : ℤ) ≤ col) →
      isWall (some g) col row = true) ∧
    (0 ≤ row → 0 ≤ col → row < (g.length : ℤ) → col < ((g.headD []).length : ℤ) →
      (isWall (some g) col row = true ↔
        ((g.get? row.toNat).getD []).get? col.toNat = some '#')) := by
  constructor
  · intro h
    simp only [isWall]
    split_ifs with h1 h2
    · rfl
    · rfl
    · exfalso
      simp only [Bool.or_eq_true, decide_eq_true_eq, not_or] at h1 h2
      omega
  · intro hr0 hc0 hrl hcl
    have hrow : row.toNat < g.length := by omega
    have hcolb : col.toNat < (g.headD []).length := by omega
    obtain ⟨rowL, hrowL⟩ : ∃ rowL, g.get? row.toNat = some rowL := by
      cases hx : g.get? row.toNat with
      | none => exact absurd (List.get?_eq_none.mp hx) (by omega)
      | some rowL => exact ⟨rowL, rfl⟩
    have hlen : rowL.length = (g.headD []).length := hrect rowL (List.get?_mem hrowL)
    obtain ⟨ch, hch⟩ : ∃ ch, rowL.get? col.toNat = some ch := by
      cases hx : rowL.get? col.toNat with
      | none => exact absurd (List.get?_eq_none.mp hx) (by omega)
      | some ch => exact ⟨ch, rfl⟩
    simp only [isWall]
    split_ifs with h1 h2
    · exfalso
      simp only [Bool.or_eq_true, decide_eq_true_eq] at h1
      omega
    · exfalso
      simp only [Bool.or_eq_true, decide_eq_true_eq] at h2
      omega
    · rw [hrowL, Option.getD_some, hch, Option.getD_some]
      simp [beq_iff_eq]

/-- Witness for C4: a concrete rectangular grid, checked at the
in-bounds wall cell `(0, 0)`. -/
theorem isWall_closed_world_witness :
    (∀ r ∈ [['#', '.'], ['.', '#']],
        r.length = (([['#', '.'], ['.', '#']] : Grid).headD []).length) ∧
    (((0 : ℤ) < 0 ∨ (0 : ℤ) < 0 ∨
        ((([['#', '.'], ['.', '#']] : Grid).length : ℤ) ≤ 0) ∨
        (((([['#', '.'], ['.', '#']] : Grid).headD []).length : ℤ) ≤ 0)) →
      isWall (some [['#', '.'], ['.', '#']]) 0 0 = true) ∧
    ((0 : ℤ) ≤ 0 → (0 : ℤ) ≤ 0 →
      (0 : ℤ) < (([['#', '.'], ['.', '#']] : Grid).length : ℤ) →
      (0 : ℤ) < ((([['#', '.'], ['.', '#']] : Grid).headD []).length : ℤ) →
      (isWall (some [['#', '.'], ['.', '#']]) 0 0 = true ↔
        ((([['#', '.'], ['.', '#']] : Grid).get? (0 : ℤ).toNat).getD []).get?
          (0 : ℤ).toNat = some '#')) :=
  ⟨by with_unfolding_all decide,
    isWall_closed_world [['#', '.'], ['.', '#']] (by with_unfolding_all decide) 0 0⟩

/-- `List.findIdx?` (the model of JS `indexOf`) returns the earliest
matching index. -/
theorem findIdx?_char_first (sym : Char) :
    ∀ (l : List Char) (c : ℕ), l.findIdx? (· == sym) = some c →
      l.get? c = some sym ∧ ∀ j, j < c → l.get? j ≠ some sym := by
  intro l
  induction l with
  | nil => intro c h; simp at h
  | cons a l ih =>
      intro c h
      rw [List.findIdx?_cons] at h
      by_cases ha : (a == sym) = true
      · rw [if_pos ha] at h
        cases h
        have : a = sym := by simpa using ha
        subst this
        exact ⟨rfl, fun j hj => absurd hj (by omega)⟩
      · rw [if_neg ha, List.findIdx?_succ] at h
        obtain ⟨c', hc', rfl⟩ := Option.map_eq_some'.mp h
        obtain ⟨h1, h2⟩ := ih c' hc'
        refine ⟨h1, ?_⟩
        intro j hj
        cases j with
        | zero =>
            simp only [List.get?_cons_zero, ne_eq, Option.some.injEq]
            intro heq
            exact ha (by simp [heq])
        | succ j' =>
            simpa only [List.get?_cons_succ] using h2 j' (by omega)

/-- `Option.elim` against `none` and `some` is the identity. -/
theorem elim_none_some {α : Type} (o : Option α) : o.elim none some = o := by
  cases o <;> rfl

/-- The accumulator-passing loop of `findSpecialCells` keeps, for each
symbol, the latest row that contains it (falling back to the incoming
accumulator when no row does). -/
theorem findSpecialCellsAux_eq (rows : Grid) : ∀ (r0 : ℕ) (s g : Option (ℕ × ℕ)),
    findSpecialCellsAux r0 s g rows =
      ((lastSymbolCellFrom 'S' r0 rows).elim s some,
       (lastSymbolCellFrom 'G' r0 rows).elim g some) := by
  induction rows with
  | nil => intro r0 s g; rfl
  | cons row rest ih =>
      intro r0 s g
      simp only [findSpecialCellsAux, lastSymbolCellFrom]
      rw [ih]
      cases h1 : lastSymbolCellFrom 'S' (r0 + 1) rest <;>
        cases h2 : lastSymbolCellFrom 'G' (r0 + 1) rest <;>
          cases h3 : row.findIdx? (· == 'S') <;>
            cases h4 : row.findIdx? (· == 'G') <;>
              simp [h1, h2, h3, h4]

/-- C5 (amended): `findSpecialCells` returns, for each of the symbols,
the occurrence in the *latest* row containing it, at the earliest
column within that row (the per-row scan `indexOf`, modelled by
`List.findIdx?`, returns the first index; the cross-row loop overwrites
earlier rows with later ones). -/
theorem findSpecialCells_last_row_first_col :
    (∀ grid : Grid,
        findSpecialCells grid = (lastSymbolCell 'S' grid, lastSymbolCell 'G' grid)) ∧
    (∀ (sym : Char) (row : List Char) (c : ℕ), row.findIdx? (· == sym) = some c →
        row.get? c = some sym ∧ ∀ j, j < c → row.get? j ≠ some sym) := by
  constructor
  · intro grid
    rw [findSpecialCells, lastSymbolCell, lastSymbolCell, findSpecialCellsAux_eq,
      elim_none_some, elim_none_some]
  · exact findIdx?_char_first

/-- Witness for the amended C5: on a grid with an S in each of two
rows, the later row wins, and `findIdx?` reports the first column. -/
theorem findSpecialCells_last_row_first_col_witness :
    (findSpecialCells [['S', '.'], ['S', '.']] =
      (lastSymbolCell 'S' [['S', '.'], ['S', '.']],
       lastSymbolCell 'G' [['S', '.'], ['S', '.']]) ∧
     (['.', 'S'].findIdx? (· == 'S') = some 1) ∧
     (['.', 'S'].get? 1 = some 'S' ∧ ∀ j, j < 1 → ['.', 'S'].get? j ≠ some 'S')) :=
  ⟨findSpecialCells_last_row_first_col.1 [['S', '.'], ['S', '.']],
    by with_unfolding_all decide,
    findSpecialCells_last_row_first_col.2 'S' ['.', 'S'] 1 (by with_unfolding_all decide)⟩

/-- C5 counterexample: on a grid whose rows 0 and 1 both contain an S
in column 0, `findSpecialCells` returns the cell in row 1, not the
first occurrence in scan order, row 0. -/
theorem findSpecialCells_first_occurrence_cex :
    (findSpecialCells [['S', '.'], ['S', '.']]).1 = some (1, 0) ∧
    (findSpecialCells [['S', '.'], ['S', '.']]).1 ≠ some (0, 0) := by
  with_unfolding_all decide

/-- C6 counterexample: at cellSize 1 (which is positive) the computed
radius is 3, which exceeds `0.45 * 1`, so the claimed invariant
`radius ≤ 0.45 * cellSize` fails for small positive cell sizes. -/
theorem syncBallRadius_invariant_cex :
    (0 : ℚ) < 1 ∧ ¬ (syncBallRadius 1 ≤ 1 * (45 / 100)) := by
  with_unfolding_all decide

/-- C6 (amended): for every `cellSize ≥ 20/3` (in particular for every
rendered cell, since the renderer enforces a minimum cell of 8), the
radius computed by `syncBallRadius` satisfies
`3 ≤ radius ≤ 0.45 * cellSize`. -/
theorem syncBallRadius_invariant (cellSize : ℚ) (h : 20 / 3 ≤ cellSize) :
    3 ≤ syncBallRadius cellSize ∧ syncBallRadius cellSize ≤ cellSize * (45 / 100) := by
  unfold syncBallRadius
  refine ⟨le_max_left _ _, ?_⟩
  have hmin : min (cellSize * (35 / 100)) (cellSize * (45 / 100)) = cellSize * (35 / 100) :=
    min_eq_left (by nlinarith)
  rw [hmin]
  apply max_le
  · linarith
  · nlinarith

/-- Witness for the amended C6 at cellSize 10. -/
theorem syncBallRadius_invariant_witness :
    (20 / 3 : ℚ) ≤ 10 ∧
    ((3 : ℚ) ≤ syncBallRadius 10 ∧ syncBallRadius 10 ≤ 10 * (45 / 100)) :=
  ⟨by norm_num, syncBallRadius_invariant 10 (by norm_num)⟩

/-- C7 counterexample: at cellSize 1, dt 1 and post-damping velocity
`(9/10, 0)` (whose magnitude `9/10` the model computes exactly), the
code computes `max(1, ceil(speed*dt / max(1, 0.45*cellSize))) = 1`
sub-steps, while the claimed formula with divisor `0.45 * cellSize`
gives 2. -/
theorem subStepCount_cex :
    ratSqrt ((9 / 10 : ℚ) * (9 / 10) + 0 * 0) = 9 / 10 ∧
    subStepCount (ratSqrt ((9 / 10 : ℚ) * (9 / 10) + 0 * 0)) 1 (1 * (45 / 100)) = 1 ∧
    claimedSubStepCount (ratSqrt ((9 / 10 : ℚ) * (9 / 10) + 0 * 0)) 1 (1 * (45 / 100)) = 2 := by
  refine ⟨?_, ?_, ?_⟩ <;> with_unfolding_all decide

/-- C7 (amended): `stepPhysics` subdivides the position update into
exactly `N = max(1, ceil(speed * dt / max(1, 0.45 * cellSize)))` equal
sub-steps of duration `dt / N` each, where `speed` is the magnitude of
the post-damping velocity (stated via a rational witness `s` of the
exact magnitude; the code applies the guard `max(1, _)` to the divisor,
which the claim omitted). -/
theorem stepPhysics_subdivision (cfg : Cfg) (damp ax ay dt : ℚ) (st : GameState) (s : ℚ)
    (hs0 : 0 ≤ s)
    (hs : s * s = ((st.ball.vx + ax * dt) * damp) * ((st.ball.vx + ax * dt) * damp) +
        ((st.ball.vy + ay * dt) * damp) * ((st.ball.vy + ay * dt) * damp)) :
    stepPhysics cfg damp ax ay dt st =
      goalCheck cfg st.goalReached
        (subSteps cfg st.ball.radius cfg.render.cellSize
          (dt / ((max 1 ⌈s * dt / max 1 (cfg.render.cellSize * (45 / 100))⌉ : ℤ) : ℚ))
          (max 1 ⌈s * dt / max 1 (cfg.render.cellSize * (45 / 100))⌉ : ℤ).toNat
          { st.ball with vx := (st.ball.vx + ax * dt) * damp,
                         vy := (st.ball.vy + ay * dt) * damp }) := by
  have hspeed : ratSqrt (((st.ball.vx + ax * dt) * damp) * ((st.ball.vx + ax * dt) * damp) +
      ((st.ball.vy + ay * dt) * damp) * ((st.ball.vy + ay * dt) * damp)) = s :=
    ratSqrt_eq_of_sq _ s hs0 hs
  unfold stepPhysics subStepCount
  simp only []
  rw [hspeed]

/-- Witness for the amended C7: damp 1, no acceleration, velocity
`(3, 4)` of exact magnitude 5, dt 1, cellSize 10. -/
theorem stepPhysics_subdivision_witness :
    ((0 : ℚ) ≤ 5 ∧
     (5 : ℚ) * 5 = ((3 + 0 * 1) * 1) * ((3 + 0 * 1) * 1) +
        ((4 + 0 * 1) * 1) * ((4 + 0 * 1) * 1)) ∧
    stepPhysics cfgFloor 1 0 0 1
        { ball := { px := 5, py := 5, vx := 3, vy := 4, radius := 3 }, goalReached := false } =
      goalCheck cfgFloor false
        (subSteps cfgFloor 3 cfgFloor.render.cellSize
          (1 / ((max 1 ⌈(5 : ℚ) * 1 / max 1 (cfgFloor.render.cellSize * (45 / 100))⌉ : ℤ) : ℚ))
          (max 1 ⌈(5 : ℚ) * 1 / max 1 (cfgFloor.render.cellSize * (45 / 100))⌉ : ℤ).toNat
          { px := 5, py := 5, vx := (3 + 0 * 1) * 1, vy := (4 + 0 * 1) * 1, radius := 3 }) :=
  ⟨⟨by norm_num, by norm_num⟩,
    stepPhysics_subdivision cfgFloor 1 0 0 1
      { ball := { px := 5, py := 5, vx := 3, vy := 4, radius := 3 }, goalReached := false }
      5 (by norm_num) (by norm_num)⟩

/-- The goal-detection step is monotone and idempotent in
`goalReached`: it never clears the flag, the completion event implies
the flag was clear and the ball center tile matches the goal cell, and
a set flag suppresses the event. -/
theorem goalCheck_goal_monotone (cfg : Cfg) (gr : Bool) (b : Ball) :
    (gr = true → (goalCheck cfg gr b).1.goalReached = true ∧ (goalCheck cfg gr b).2 = false) ∧
    ((goalCheck cfg gr b).1.goalReached = false → gr = false) ∧
    ((goalCheck cfg gr b).2 = true → gr = false ∧
      ∃ gc, cfg.goalCell = some gc ∧
        ⌊(goalCheck cfg gr b).1.ball.py / cfg.render.cellSize⌋ = gc.1 ∧
        ⌊(goalCheck cfg gr b).1.ball.px / cfg.render.cellSize⌋ = gc.2) := by
  cases gr with
  | true =>
      cases hgc : cfg.goalCell <;>
        simp [goalCheck, hgc]
  | false =>
      cases hgc : cfg.goalCell with
      | none => simp [goalCheck, hgc]
      | some gc =>
          by_cases hhit : ⌊b.py / cfg.render.cellSize⌋ = gc.1 ∧ ⌊b.px / cfg.render.cellSize⌋ = gc.2
          · simp [goalCheck, hgc, hhit]
          · simp [goalCheck, hgc, hhit]

/-- C8: the `goalReached` flag only transitions from `false` to `true`
under `stepPhysics`; the completion event fires only in a step where
the flag was clear and the tile containing the post-sub-step ball
center equals the goal cell; once the flag is set, a step neither
clears it nor re-fires the event, regardless of ball position. -/
theorem stepPhysics_goal_monotone (cfg : Cfg) (damp ax ay dt : ℚ) (st : GameState) :
    (st.goalReached = true →
      (stepPhysics cfg damp ax ay dt st).1.goalReached = true ∧
      (stepPhysics cfg damp ax ay dt st).2 = false) ∧
    ((stepPhysics cfg damp ax ay dt st).1.goalReached = false → st.goalReached = false) ∧
    ((stepPhysics cfg damp ax ay dt st).2 = true →
      st.goalReached = false ∧
      ∃ gc, cfg.goalCell = some gc ∧
        ⌊(stepPhysics cfg damp ax ay dt st).1.ball.py / cfg.render.cellSize⌋ = gc.1 ∧
        ⌊(stepPhysics cfg damp ax ay dt st).1.ball.px / cfg.render.cellSize⌋ = gc.2) :=
  goalCheck_goal_monotone cfg st.goalReached _

/-- A one-cell level whose single floor tile is the goal cell. -/
def cfgGoal : Cfg :=
  { level := some [['G']],
    render := { cols := 1, rows := 1, cellSize := 10 },
    goalCell := some (0, 0) }

/-- Witness for C8: in the already-completed state, a further step
keeps `goalReached` and does not re-fire the completion event. -/
theorem stepPhysics_goal_monotone_witness :
    (stepPhysics cfgGoal 1 0 0 (1 / 100)
        { ball := { px := 5, py := 5, vx := 0, vy := 0, radius := 3 },
          goalReached := true }).1.goalReached = true ∧
    (stepPhysics cfgGoal 1 0 0 (1 / 100)
        { ball := { px := 5, py := 5, vx := 0, vy := 0, radius := 3 },
          goalReached := true }).2 = false :=
  (stepPhysics_goal_monotone cfgGoal 1 0 0 (1 / 100)
    { ball := { px := 5, py := 5, vx := 0, vy := 0, radius := 3 },
      goalReached := true }).1 rfl

/-- C9: `startTimer` is a no-op when already running; `stopTimer` is a
no-op when not running; from the reset state, start at `t0`, stop at
`t0 + T`, and the elapsed time reads `T`; after a reset the elapsed
time reads 0. -/
theorem timer_semantics :
    (∀ (now : ℚ) (st : TimerState), st.running = true → startTimer now st = st) ∧
    (∀ (now : ℚ) (st : TimerState), st.running = false → stopTimer now st = st) ∧
    (∀ (t0 T now : ℚ) (st : TimerState),
        getElapsedMs now (stopTimer (t0 + T) (startTimer t0 (resetTimer st))) = T) ∧
    (∀ (now : ℚ) (st : TimerState), getElapsedMs now (resetTimer st) = 0) := by
  refine ⟨?_, ?_, ?_, ?_⟩
  · intro now st h
    simp [startTimer, h]
  · intro now st h
    simp [stopTimer, h]
  · intro t0 T now st
    simp [resetTimer, startTimer, stopTimer, getElapsedMs]
  · intro now st
    simp [resetTimer, getElapsedMs]

/-- Witness for C9 at concrete clock values and timer states. -/
theorem timer_semantics_witness :
    startTimer 7 { startTime := 2, elapsedMs := 3, running := true, started := true } =
      { startTime := 2, elapsedMs := 3, running := true, started := true } ∧
    stopTimer 7 { startTime := 2, elapsedMs := 3, running := false, started := true } =
      { startTime := 2, elapsedMs := 3, running := false, started := true } ∧
    getElapsedMs 999 (stopTimer (100 + 250)
      (startTimer 100 (resetTimer
        { startTime := 1, elapsedMs := 2, running := true, started := false }))) = 250 ∧
    getElapsedMs 5 (resetTimer
      { startTime := 1, elapsedMs := 2, running := true, started := false }) = 0 :=
  ⟨timer_semantics.1 7 _ rfl,
    timer_semantics.2.1 7 _ rfl,
    timer_semantics.2.2.1 100 250 999 _,
    timer_semantics.2.2.2 5 _⟩

end MoCIoT

namespace MoCIoT

-- sanity checks on concrete inputs
example : clamp 5 3 7 = 5 := by with_unfolding_all decide
example : ratSqrt (81 / 100) = 9 / 10 := by with_unfolding_all decide
example : isWall none 5 (-3) = false := by with_unfolding_all decide
example : isWall (some [['#', '.'], ['.', '#']]) 0 0 = true := by with_unfolding_all decide
example : isWall (some [['#', '.'], ['.', '#']]) 1 0 = false := by with_unfolding_all decide
example : isWall (some [['#', '.'], ['.', '#']]) 2 0 = true := by with_unfolding_all decide
example : findSpecialCells [['S', '.'], ['S', '.']] = (some (1, 0), none) := by
  with_unfolding_all decide
example : syncBallRadius 10 = 7 / 2 := by with_unfolding_all decide

end MoCIoT
